import Mathlib

/-!
Verification of the openwork agent runtime adapter protocol and streaming
coordinator against its natural-language specification.

The definitions below are a shallow embedding of the TypeScript sources:
  * `src/main/agent/runtimes/codex-sdk.ts`   (thread-based variant)
  * `src/main/agent/runtimes/claude-sdk.ts`  (session-resumable variant)
  * `src/main/agent/runtimes/deepagents.ts`  (graph-checkpoint variant)
  * `src/main/agent/runtime-factory.ts`
  * `src/main/ipc/agent.ts`                  (stream coordinator / IPC handlers)

External collaborators (the thread store `getThread`/`updateThread`, the
`getDefaultAgentRuntime` setting, the backend SDKs and the approval dialogs)
are modelled as inputs: the native SDK call is a value of `Native α`
(a list of backend events, optionally followed by a thrown exception), the
thread store is an `Option Thread` argument, and the cancellation token is an
abort schedule `Sig` giving the instant at which `signal.aborted` flips to
true (cooperative single-threaded semantics: the flag is polled between
events, exactly as the `if (signal.aborted) break` checks in the source).
-/

namespace Openwork

/-! ## Event and command vocabulary (src/main/agent/types.ts consumers) -/

/-- Stream mode tag of deepagents dual-mode streaming
(`streamMode: ['messages', 'values']`). -/
inductive StreamMode
  | messages
  | values
deriving DecidableEq, Repr

/-- `RuntimeStreamEvent`: the events yielded by every adapter generator and
forwarded over the `agent:stream:<threadId>` IPC channel. -/
inductive Ev
  | token (messageId tok : String)
  | stream (mode : StreamMode) (data : String)
  | done
  | error (msg : String)
deriving DecidableEq, Repr

/-- Terminal events of the protocol: `done` and `error`. -/
def Ev.isTerminal : Ev → Bool
  | .done => true
  | .error _ => true
  | _ => false

def Ev.isDone : Ev → Bool
  | .done => true
  | _ => false

/-- `HITLDecision`: approve / reject / edit (with replacement arguments). -/
inductive HITLDecision
  | approve
  | reject
  | edit (args : String)
deriving DecidableEq, Repr

/-- A JavaScript exception as observed by the `catch` blocks: whether it is an
`Error` instance, its `name` and its `message`. -/
structure Thrown where
  isErrorInstance : Bool
  name : String
  message : String
deriving DecidableEq, Repr

/-- Substring test, modelling JavaScript `String.prototype.includes`. -/
def substrB (pat s : String) : Bool :=
  s.toList.tails.any (fun t => pat.toList.isPrefixOf t)

/-- `error instanceof Error ? error.message : 'Unknown error'` -/
def Thrown.surfaceMsg (e : Thrown) : String :=
  if e.isErrorInstance then e.message else "Unknown error"

/-- The abort-error test of claude-sdk.ts (also used verbatim by the IPC
coordinator's catch blocks):
`error instanceof Error && (error.name === 'AbortError' ||
 error.message.includes('aborted') ||
 error.message.includes('Controller is already closed'))`. -/
def claudeIsAbortError (e : Thrown) : Bool :=
  e.isErrorInstance &&
    (e.name == "AbortError" || substrB "aborted" e.message ||
      substrB "Controller is already closed" e.message)

/-- The abort-error test of codex-sdk.ts:
`error instanceof Error && (error.name === 'AbortError' ||
 error.message.includes('aborted') || error.message.includes('cancelled'))`. -/
def codexIsAbortError (e : Thrown) : Bool :=
  e.isErrorInstance &&
    (e.name == "AbortError" || substrB "aborted" e.message ||
      substrB "cancelled" e.message)

/-- The abort-error test of the coordinator's catch in src/main/ipc/agent.ts;
textually identical to the claude-sdk one. -/
def coordinatorIsAbortError (e : Thrown) : Bool :=
  e.isErrorInstance &&
    (e.name == "AbortError" || substrB "aborted" e.message ||
      substrB "Controller is already closed" e.message)

/-! ## Cancellation token (AbortSignal) -/

/-- An abort schedule: `abortAt = some k` means `signal.aborted` reads false
at the polling instants `0, …, k-1` and true from instant `k` on (the flag is
monotone: once triggered it is never untriggered). Instant `i` is the poll
made just after the i-th native event was pulled; instant `n` (the list
length) is the post-loop poll. -/
structure Sig where
  abortAt : Option Nat
deriving DecidableEq, Repr

def Sig.aborted (s : Sig) (t : Nat) : Bool :=
  match s.abortAt with
  | none => false
  | some k => decide (k ≤ t)

/-- A token that is never triggered. -/
def Sig.never : Sig := ⟨none⟩

/-! ## Native SDK behaviour -/

/-- The behaviour of one native SDK call as seen through its async iterator:
it yields a list of backend events and then either completes normally or
throws. -/
inductive Native (α : Type)
  | completes (evs : List α)
  | throws (evs : List α) (err : Thrown)
deriving DecidableEq, Repr

/-! ## The shared adapter loop

Every adapter runs the same shape of loop over the native iterator:
```
for await (const event of nativeEvents) {
  if (signal.aborted) break
  ...yield derived events...
}
if (!signal.aborted) { yield { type: 'done' } }
```
`loopOut` is that loop: event number `t` is processed only if the abort poll
at instant `t` reads false, and the first true poll breaks the loop. -/

def loopOut (emit : α → List Ev) (s : Sig) : List α → Nat → List Ev
  | [], _ => []
  | e :: rest, t =>
      if s.aborted t then [] else emit e ++ loopOut emit s rest (t + 1)

/-- Whether the loop broke before exhausting the native events (so the native
iterator is never pulled again: neither the final throw nor further events
are observed). -/
def brokeEarly (s : Sig) (n : Nat) : Bool :=
  decide (0 < n) && s.aborted (n - 1)

/-- An adapter generator that wraps its body in
`try { loop; if (!aborted) yield done } catch (e) { if (!isAbortError(e))
yield error }` — the claude-sdk and codex-sdk shape. Returns the list of
events yielded by the generator. -/
def streamWithCatch (emit : α → List Ev) (isAbortErr : Thrown → Bool)
    (native : Native α) (s : Sig) : List Ev :=
  match native with
  | .completes evs =>
      loopOut emit s evs 0 ++ (if s.aborted evs.length then [] else [.done])
  | .throws evs err =>
      if brokeEarly s evs.length then
        loopOut emit s evs 0
      else
        loopOut emit s evs 0 ++
          (if isAbortErr err then [] else [.error err.surfaceMsg])

/-- An adapter generator with no catch of its own (the deepagents shape): a
native throw escapes the generator and propagates to the coordinator. Returns
the yielded events together with the escaping exception, if any. -/
def streamNoCatch (emit : α → List Ev) (native : Native α) (s : Sig) :
    List Ev × Option Thrown :=
  match native with
  | .completes evs =>
      (loopOut emit s evs 0 ++ (if s.aborted evs.length then [] else [.done]),
        none)
  | .throws evs err =>
      if brokeEarly s evs.length then (loopOut emit s evs 0, none)
      else (loopOut emit s evs 0, some err)

/-! ## Delivery to the consumer

The coordinator forwards each yielded event through
`if (abortController.signal.aborted) break; window.webContents.send(...)`,
so an event yielded at instant `t` is delivered only if the abort poll at `t`
reads false. For events produced inside the adapter loop this coincides with
the adapter's own poll; the only difference is the adapter-catch `error`
event, which the adapter yields without consulting the signal but which the
coordinator drops when already aborted. -/

def deliveredWithCatch (emit : α → List Ev) (isAbortErr : Thrown → Bool)
    (native : Native α) (s : Sig) : List Ev :=
  match native with
  | .completes evs =>
      loopOut emit s evs 0 ++ (if s.aborted evs.length then [] else [.done])
  | .throws evs err =>
      if brokeEarly s evs.length then
        loopOut emit s evs 0
      else
        loopOut emit s evs 0 ++
          (if isAbortErr err || s.aborted evs.length then []
           else [.error err.surfaceMsg])

/-- The coordinator's own catch (src/main/ipc/agent.ts): an exception that
escapes the adapter generator is swallowed when it is abort noise, and is
otherwise sent to the renderer as a terminal `error` event. Note that this
catch does NOT re-check the abort flag before sending. -/
def coordCatchEvents (err : Thrown) : List Ev :=
  if coordinatorIsAbortError err then [] else [.error err.surfaceMsg]

/-- Events delivered to the consumer for a run of an adapter with no catch of
its own (deepagents), i.e. the composition of `streamNoCatch` with the
coordinator's forwarding loop and catch. -/
def deliveredNoCatch (emit : α → List Ev) (native : Native α) (s : Sig) :
    List Ev :=
  match native with
  | .completes evs =>
      loopOut emit s evs 0 ++ (if s.aborted evs.length then [] else [.done])
  | .throws evs err =>
      if brokeEarly s evs.length then loopOut emit s evs 0
      else loopOut emit s evs 0 ++ coordCatchEvents err

/-! ## Conversation (thread) metadata: the Session Identity Store substrate

`getThread(threadId)` returns `Option Thread`; `thread.metadata` is a JSON
string, modelled by its parse outcome: absent (null / empty string),
`malformed` (JSON.parse throws) or a parsed record. -/

/-- The metadata keys the core reads and writes. -/
structure MetaRecord where
  claudeSessionId : Option String := none
  codexThreadId : Option String := none
  agentRuntime : Option String := none
deriving DecidableEq, Repr

/-- Parse outcome of a stored metadata string. -/
inductive MetaBlob
  | malformed
  | record (m : MetaRecord)
deriving DecidableEq, Repr

structure Thread where
  metadata : Option MetaBlob
deriving DecidableEq, Repr

/-! ## claude-sdk.ts: Session Identity Store operations -/

/-- `getSessionId` (claude-sdk.ts): returns `metadata.claudeSessionId`;
`JSON.parse` failures are caught and mapped to `undefined`. -/
def getSessionId : Option Thread → Option String
  | none => none
  | some t =>
      match t.metadata with
      | none => none
      | some .malformed => none
      | some (.record m) => m.claudeSessionId

/-- `saveSessionId` (claude-sdk.ts): read-modify-write of the
`claudeSessionId` key. The parse `JSON.parse(thread.metadata)` is NOT wrapped
in try/catch here, so a malformed blob makes the call throw (`Except.error`).
Returns the record written back, or `none` when the thread is absent
(the function returns without writing). -/
def saveSessionId : Option Thread → String → Except Unit (Option MetaRecord)
  | none, _ => .ok none
  | some t, sid =>
      match t.metadata with
      | none => .ok (some { claudeSessionId := some sid })
      | some .malformed => .error ()
      | some (.record m) => .ok (some { m with claudeSessionId := some sid })

/-! ## codex-sdk.ts: Session Identity Store operations -/

/-- `getCodexThreadId` (codex-sdk.ts): returns `metadata.codexThreadId`;
parse failures are caught and mapped to `undefined`. -/
def getCodexThreadId : Option Thread → Option String
  | none => none
  | some t =>
      match t.metadata with
      | none => none
      | some .malformed => none
      | some (.record m) => m.codexThreadId

/-- `saveCodexThreadId` (codex-sdk.ts): read-modify-write of the
`codexThreadId` key; like `saveSessionId` the parse is not guarded, so a
malformed blob throws. -/
def saveCodexThreadId : Option Thread → String → Except Unit (Option MetaRecord)
  | none, _ => .ok none
  | some t, cid =>
      match t.metadata with
      | none => .ok (some { codexThreadId := some cid })
      | some .malformed => .error ()
      | some (.record m) => .ok (some { m with codexThreadId := some cid })

/-! ## Model selection -/

/-- `DEFAULT_CLAUDE_MODEL` (claude-sdk.ts). -/
def DEFAULT_CLAUDE_MODEL : String := "claude-sonnet-4-5-20250929"

/-- `DEFAULT_CODEX_MODEL` (codex-sdk.ts). -/
def DEFAULT_CODEX_MODEL : String := "gpt-5-codex"

/-- JavaScript `s.startsWith(pre)`, via the character list (so that it
computes inside the kernel). -/
def startsWithB (s pre : String) : Bool := pre.toList.isPrefixOf s.toList

/-- `isClaudeModel` (claude-sdk.ts): `if (!modelId) return false;
return modelId.startsWith('claude-')`. -/
def isClaudeModel : Option String → Bool
  | none => false
  | some m => if m == "" then false else startsWithB m "claude-"

/-- `isCodexModel` (codex-sdk.ts): `if (!modelId) return false;
return modelId.startsWith('gpt-') || modelId.startsWith('o1') ||
modelId.startsWith('o3')`. -/
def isCodexModel : Option String → Bool
  | none => false
  | some m =>
      if m == "" then false
      else startsWithB m "gpt-" || startsWithB m "o1" || startsWithB m "o3"

/-- `const model = isClaudeModel(modelId) ? modelId : DEFAULT_CLAUDE_MODEL`. -/
def claudeModelFor (modelId : Option String) : String :=
  if isClaudeModel modelId then modelId.getD DEFAULT_CLAUDE_MODEL
  else DEFAULT_CLAUDE_MODEL

/-- `const model = isCodexModel(modelId) ? modelId : DEFAULT_CODEX_MODEL`. -/
def codexModelFor (modelId : Option String) : String :=
  if isCodexModel modelId then modelId.getD DEFAULT_CODEX_MODEL
  else DEFAULT_CODEX_MODEL

/-! ## Per-turn setup (the configuration each `stream` builds before the
native call) -/

/-- The options claude-sdk.ts passes to `query`: the effective model and the
`resume:` session id (`undefined` starts a fresh session). -/
structure ClaudeQueryConfig where
  model : String
  resume : Option String
deriving DecidableEq, Repr

/-- Setup of `createClaudeSdkAdapter.stream`: resolve the model and read the
stored session id from the Session Identity Store. -/
def claudeStreamConfig (thread : Option Thread) (modelId : Option String) :
    ClaudeQueryConfig :=
  { model := claudeModelFor modelId, resume := getSessionId thread }

/-- Whether codex-sdk.ts calls `codex.resumeThread(existingCodexThreadId, …)`
or `codex.startThread(…)`. -/
inductive CodexThreadAction
  | resumeThread (id : String)
  | startThread
deriving DecidableEq, Repr

/-- The per-turn setup of `createCodexSdkAdapter.stream`: effective model and
thread action. `existingCodexThreadId ? resumeThread : startThread` is a JS
truthiness test, so an empty-string id also starts a fresh thread. -/
structure CodexTurnConfig where
  model : String
  threadAction : CodexThreadAction
deriving DecidableEq, Repr

def codexStreamConfig (thread : Option Thread) (modelId : Option String) :
    CodexTurnConfig :=
  { model := codexModelFor modelId,
    threadAction :=
      match getCodexThreadId thread with
      | some cid => if cid == "" then .startThread else .resumeThread cid
      | none => .startThread }

/-! ## codex-sdk.ts: event translation and the three operations -/

/-- `ThreadItem` as far as `extractTextFromItem` inspects it. -/
inductive CodexItem
  | agentMessage (text : String)
  | reasoning (text : String)
  | other
deriving DecidableEq, Repr

/-- `extractTextFromItem`. -/
def extractTextFromItem : CodexItem → Option String
  | .agentMessage t => some t
  | .reasoning t => some t
  | .other => none

/-- The codex `ThreadEvent` variants the stream loop dispatches on. -/
inductive CodexEvent
  | threadStarted (threadId : Option String)
  | itemCompleted (item : CodexItem)
  | turnFailed (errMessage : Option String)
  | errorEvent (message : Option String)
  | other
deriving DecidableEq, Repr

/-- JS `x || dflt` on an optional string (empty string is falsy). -/
def jsOr (o : Option String) (dflt : String) : String :=
  match o with
  | some s => if s == "" then dflt else s
  | none => dflt

/-- Events the codex stream loop body yields for one native event:
`thread.started` only saves the thread id (no event), a completed item with
truthy extracted text yields one `token`, `turn.failed` and `error` yield an
`error` event with a fallback message. -/
def emitCodex (messageId : String) : CodexEvent → List Ev
  | .threadStarted _ => []
  | .itemCompleted item =>
      match extractTextFromItem item with
      | some t => if t == "" then [] else [.token messageId t]
      | none => []
  | .turnFailed m => [.error (jsOr m "Turn failed")]
  | .errorEvent m => [.error (jsOr m "Stream error")]
  | .other => []

/-- Events yielded by `createCodexSdkAdapter.stream`. -/
def codexStreamEvents (messageId : String) (native : Native CodexEvent)
    (s : Sig) : List Ev :=
  streamWithCatch (emitCodex messageId) codexIsAbortError native s

/-- Events delivered to the consumer for a codex `begin` run (generator
composed with the coordinator's forwarding loop). -/
def codexDeliveredEvents (messageId : String) (native : Native CodexEvent)
    (s : Sig) : List Ev :=
  deliveredWithCatch (emitCodex messageId) codexIsAbortError native s

/-- Opaque resume arguments (`ResumeArgs`); codex `resume` ignores them. -/
structure ResumeArgs where
  threadId : String
  workspacePath : String
deriving DecidableEq, Repr

/-- `InterruptArgs`. -/
structure InterruptArgs where
  threadId : String
  workspacePath : String
  decision : HITLDecision
deriving DecidableEq, Repr

/-- `createCodexSdkAdapter.resume`: unconditionally yields a single terminal
`error` event naming the unsupported operation. -/
def codexResumeEvents (_args : ResumeArgs) (_s : Sig) : List Ev :=
  [.error "Resume from checkpoint not yet supported for Codex runtime"]

/-- `createCodexSdkAdapter.interrupt`: unconditionally yields a single
terminal `error` event naming the unsupported operation. -/
def codexInterruptEvents (_args : InterruptArgs) (_s : Sig) : List Ev :=
  [.error "Interrupt handling not yet supported for Codex runtime"]

/-! ## claude-sdk.ts: event translation and the three operations -/

/-- A content block of an assistant SDK message; `textBlock` models a block
with a string `text` field. -/
inductive ContentBlock
  | textBlock (text : String)
  | other
deriving DecidableEq, Repr

/-- The SDK messages the claude stream loop dispatches on. -/
inductive SdkMessage
  | systemInit (sessionId : Option String)
  | assistant (content : List ContentBlock)
  | result (subtype : String) (errors : List String)
  | other
deriving DecidableEq, Repr

/-- Events the claude stream loop body yields for one SDK message: the init
message only saves the session id (no event); every string text block of an
assistant message yields a `token`; a non-success result with a non-empty
error list yields an `error` event joining the messages with `'; '`. -/
def emitClaude (messageId : String) : SdkMessage → List Ev
  | .systemInit _ => []
  | .assistant blocks =>
      blocks.flatMap fun b =>
        match b with
        | .textBlock t => [.token messageId t]
        | .other => []
  | .result subtype errors =>
      if subtype == "success" then []
      else if errors.isEmpty then []
      else [.error (String.intercalate "; " errors)]
  | .other => []

/-- Events yielded by `createClaudeSdkAdapter.stream`. -/
def claudeStreamEvents (messageId : String) (native : Native SdkMessage)
    (s : Sig) : List Ev :=
  streamWithCatch (emitClaude messageId) claudeIsAbortError native s

/-- Events delivered to the consumer for a claude `begin` run. -/
def claudeDeliveredEvents (messageId : String) (native : Native SdkMessage)
    (s : Sig) : List Ev :=
  deliveredWithCatch (emitClaude messageId) claudeIsAbortError native s

/-- `createClaudeSdkAdapter.resume`: an absent (or falsy) stored session id
short-circuits with a terminal `error`; otherwise the session is resumed and
the same loop/catch shape as `stream` runs (the resume loop does not capture
session ids, but `emitClaude` yields no event for the init message either, so
the yielded events coincide). -/
def claudeResumeEvents (storedSession : Option String) (messageId : String)
    (native : Native SdkMessage) (s : Sig) : List Ev :=
  match storedSession with
  | none => [.error "No Claude session found for this thread"]
  | some sid =>
      if sid == "" then [.error "No Claude session found for this thread"]
      else streamWithCatch (emitClaude messageId) claudeIsAbortError native s

/-- `createClaudeSdkAdapter.interrupt`: absent session id yields a terminal
`error`; a `reject` decision yields a single `done`; `approve` and `edit`
both resume the session with a continue prompt and run the stream/catch
loop. -/
def claudeInterruptEvents (storedSession : Option String)
    (decision : HITLDecision) (messageId : String)
    (native : Native SdkMessage) (s : Sig) : List Ev :=
  match storedSession with
  | none => [.error "No Claude session found for this thread"]
  | some sid =>
      if sid == "" then [.error "No Claude session found for this thread"]
      else
        match decision with
        | .reject => [.done]
        | _ => streamWithCatch (emitClaude messageId) claudeIsAbortError native s

/-! ## deepagents.ts: event translation and the three operations -/

/-- A chunk of the deepagents dual-mode stream: `[mode, data]`. -/
structure DAChunk where
  mode : StreamMode
  data : String
deriving DecidableEq, Repr

/-- The deepagents loop body yields one `stream` event per chunk, carrying
the mode tag and the (JSON round-tripped) data. -/
def emitDA (c : DAChunk) : List Ev :=
  [.stream c.mode c.data]

/-- `createDeepagentsAdapter.stream`: the loop/done shape with no catch; a
native throw escapes to the coordinator. -/
def deepagentsStream (native : Native DAChunk) (s : Sig) :
    List Ev × Option Thrown :=
  streamNoCatch emitDA native s

/-- `createDeepagentsAdapter.resume`: same loop/done shape (driven by a
`Command({ resume: { decisions: [...] } })` native call). -/
def deepagentsResume (native : Native DAChunk) (s : Sig) :
    List Ev × Option Thrown :=
  streamNoCatch emitDA native s

/-- `createDeepagentsAdapter.interrupt`: `approve` streams the graph from its
checkpoint (`agent.stream(null, config)`) with the loop/done shape; `reject`
yields a single `done`; the `edit` case has no branch in the source and the
generator returns without yielding anything. -/
def deepagentsInterrupt (decision : HITLDecision) (native : Native DAChunk)
    (s : Sig) : List Ev × Option Thrown :=
  match decision with
  | .approve => streamNoCatch emitDA native s
  | .reject => ([.done], none)
  | .edit _ => ([], none)

/-- Events delivered to the consumer for a deepagents `begin` run (the
adapter has no catch, so the coordinator's catch finishes the run). -/
def deepagentsDeliveredEvents (native : Native DAChunk) (s : Sig) : List Ev :=
  deliveredNoCatch emitDA native s

/-! ## Runtime Selector (src/main/ipc/agent.ts: getRuntimeType) -/

/-- `VALID_RUNTIMES: RuntimeType[] = ['deepagents', 'claude-sdk', 'codex']`. -/
def VALID_RUNTIMES : List String := ["deepagents", "claude-sdk", "codex"]

/-- `isValidRuntime(value)`: `typeof value === 'string' &&
VALID_RUNTIMES.includes(value)`; `none` models any non-string candidate. -/
def isValidRuntime : Option String → Bool
  | none => false
  | some s => VALID_RUNTIMES.contains s

/-- `JSON.parse` of the thread's metadata as getRuntimeType performs it:
`thread?.metadata ? JSON.parse(thread.metadata) : {}` (NOT guarded by
try/catch, hence `Except`). -/
def parsedMeta (thread : Option Thread) : Except Unit MetaRecord :=
  match thread with
  | none => .ok {}
  | some t =>
      match t.metadata with
      | none => .ok {}
      | some .malformed => .error ()
      | some (.record m) => .ok m

/-- Levels 2–4 of the selector: thread metadata override, then global
default, then the fixed `'deepagents'` fallback.
`if (metadata.agentRuntime && isValidRuntime(metadata.agentRuntime))` is a JS
truthiness test followed by validation. -/
def runtimeFromMetaAndDefault (thread : Option Thread)
    (globalDefault : Option String) : Except Unit String :=
  match parsedMeta thread with
  | .error _ => .error ()
  | .ok m =>
      match m.agentRuntime with
      | some a =>
          if !(a == "") && isValidRuntime (some a) then .ok a
          else .ok (if isValidRuntime globalDefault then
                      globalDefault.getD "deepagents"
                    else "deepagents")
      | none =>
          .ok (if isValidRuntime globalDefault then
                 globalDefault.getD "deepagents"
               else "deepagents")

/-- `getRuntimeType(threadId)`: precedence env override (JS truthiness +
validation) → metadata override → global default → `'deepagents'`. The
process environment, the thread row and the `getDefaultAgentRuntime()`
setting are the three external inputs. -/
def getRuntimeType (env : Option String) (thread : Option Thread)
    (globalDefault : Option String) : Except Unit String :=
  match env with
  | some e =>
      if !(e == "") && isValidRuntime (some e) then .ok e
      else runtimeFromMetaAndDefault thread globalDefault
  | none => runtimeFromMetaAndDefault thread globalDefault

/-! ## Stream Coordinator: the active-run arena
(src/main/ipc/agent.ts: activeRuns / registerAgentHandlers)

The three submit handlers (`agent:invoke`, `agent:resume`, `agent:interrupt`)
share the supersede logic: look up the conversation's active run, abort its
controller and delete it, then install a fresh controller; `agent:cancel`
aborts and deletes. Event forwarding from a run checks that run's own
controller before each send. We model this as a small-step machine over the
coordinator state; runs are identified by creation order. -/

abbrev ActiveMap := List (String × Nat)

def lookupA : ActiveMap → String → Option Nat
  | [], _ => none
  | (k, v) :: rest, tid => if k = tid then some v else lookupA rest tid

def removeA : ActiveMap → String → ActiveMap
  | [], _ => []
  | (k, v) :: rest, tid =>
      if k = tid then removeA rest tid else (k, v) :: removeA rest tid

def setA (m : ActiveMap) (tid : String) (rid : Nat) : ActiveMap :=
  (tid, rid) :: removeA m tid

/-- Coordinator state: the `activeRuns` map, the set of aborted run
identities (an `AbortController`, once triggered, stays triggered), the
creation history of runs and the fresh-identity counter. -/
structure CoordState where
  active : ActiveMap
  aborted : List Nat
  runs : List (Nat × String)
  next : Nat
deriving DecidableEq, Repr

def initState : CoordState := ⟨[], [], [], 0⟩

/-- Atomic coordinator steps: a submission (turn, resume or
interrupt-decision — all three handlers run the same supersede logic), an
`agent:cancel`, or run `rid` of conversation `tid` attempting to forward an
event to the consumer. -/
inductive CoordStep
  | submit (tid : String)
  | cancel (tid : String)
  | emit (tid : String) (rid : Nat) (e : Ev)
deriving DecidableEq, Repr

/-- `const existing = activeRuns.get(tid); if (existing) { existing.abort();
activeRuns.delete(tid) }`. -/
def abortActive (st : CoordState) (tid : String) : CoordState :=
  match lookupA st.active tid with
  | some r =>
      { st with aborted := r :: st.aborted, active := removeA st.active tid }
  | none => st

def applyStep (st : CoordState) (s : CoordStep) : CoordState :=
  match s with
  | .submit tid =>
      let st1 := abortActive st tid
      { st1 with
        active := setA st1.active tid st.next,
        runs := (st.next, tid) :: st1.runs,
        next := st.next + 1 }
  | .cancel tid => abortActive st tid
  | .emit _ _ _ => st

/-- Events delivered by one step: forwarding from run `rid` succeeds only if
the run exists and its controller has not been aborted
(`if (abortController.signal.aborted) break`). -/
def stepOutput (st : CoordState) (s : CoordStep) : List (String × Nat × Ev) :=
  match s with
  | .emit tid rid e =>
      if (rid, tid) ∈ st.runs ∧ rid ∉ st.aborted then [(tid, rid, e)] else []
  | _ => []

def runSteps (st : CoordState) (l : List CoordStep) : CoordState :=
  l.foldl applyStep st

/-- All events delivered to consumers while executing `l` from `st`. -/
def outputs (st : CoordState) : List CoordStep → List (String × Nat × Ev)
  | [] => []
  | s :: rest => stepOutput st s ++ outputs (applyStep st s) rest

/-! ## Lemmas about the adapter loop -/

theorem aborted_never (t : Nat) : Sig.never.aborted t = false := rfl

theorem aborted_at (k t : Nat) : (Sig.mk (some k)).aborted t = decide (k ≤ t) := rfl

theorem loopOut_never (emit : α → List Ev) (evs : List α) (t : Nat) :
    loopOut emit Sig.never evs t = evs.flatMap emit := by
  induction evs generalizing t with
  | nil => simp [loopOut]
  | cons e rest ih => simp [loopOut, aborted_never, ih]

theorem brokeEarly_never (n : Nat) : brokeEarly Sig.never n = false := by
  simp [brokeEarly, aborted_never]

theorem loopOut_abortAt (emit : α → List Ev) (k : Nat) (evs : List α)
    (t : Nat) (ht : t ≤ k) :
    loopOut emit (Sig.mk (some k)) evs t = (evs.take (k - t)).flatMap emit := by
  induction evs generalizing t with
  | nil => simp [loopOut]
  | cons e rest ih =>
    by_cases hk : k ≤ t
    · have : t = k := le_antisymm ht hk
      subst this
      simp [loopOut, aborted_at, Nat.sub_self]
    · have hlt : t < k := lt_of_le_of_ne ht (fun h => hk (le_of_eq h.symm))
      have h1 : k - t = (k - (t + 1)) + 1 := by omega
      simp only [loopOut, aborted_at, decide_eq_true_eq]
      rw [if_neg hk, ih (t + 1) hlt, h1]
      simp

theorem streamWithCatch_completes_never (emit : α → List Ev)
    (iae : Thrown → Bool) (evs : List α) :
    streamWithCatch emit iae (.completes evs) Sig.never
      = evs.flatMap emit ++ [.done] := by
  simp [streamWithCatch, loopOut_never, aborted_never]

theorem streamWithCatch_throws_never (emit : α → List Ev)
    (iae : Thrown → Bool) (evs : List α) (err : Thrown) :
    streamWithCatch emit iae (.throws evs err) Sig.never
      = evs.flatMap emit ++ (if iae err then [] else [.error err.surfaceMsg]) := by
  simp [streamWithCatch, loopOut_never, brokeEarly_never]

theorem streamNoCatch_completes_never (emit : α → List Ev) (evs : List α) :
    streamNoCatch emit (.completes evs) Sig.never
      = (evs.flatMap emit ++ [.done], none) := by
  simp [streamNoCatch, loopOut_never, aborted_never]

theorem streamNoCatch_throws_never (emit : α → List Ev) (evs : List α)
    (err : Thrown) :
    streamNoCatch emit (.throws evs err) Sig.never
      = (evs.flatMap emit, some err) := by
  simp [streamNoCatch, loopOut_never, brokeEarly_never]

/-- No loop body ever yields `done`: the `done` of a run comes only from the
post-loop `yield { type: 'done' }`. Stated for an arbitrary emit function
with done-free output. -/
theorem countP_flatMap_zero (p : Ev → Bool) (f : α → List Ev) (l : List α)
    (h : ∀ a, (f a).countP p = 0) : (l.flatMap f).countP p = 0 := by
  induction l with
  | nil => simp
  | cons a rest ih => simp [List.countP_append, h a, ih]

theorem emitCodex_done_free (messageId : String) (e : CodexEvent) :
    (emitCodex messageId e).countP Ev.isDone = 0 := by
  cases e with
  | itemCompleted item =>
    cases item <;> simp [emitCodex, extractTextFromItem, Ev.isDone]
  | turnFailed m => simp [emitCodex, List.countP_cons, Ev.isDone]
  | errorEvent m => simp [emitCodex, List.countP_cons, Ev.isDone]
  | threadStarted tid => simp [emitCodex]
  | other => simp [emitCodex]

theorem emitClaude_done_free (messageId : String) (m : SdkMessage) :
    (emitClaude messageId m).countP Ev.isDone = 0 := by
  cases m with
  | assistant blocks =>
    simp only [emitClaude]
    apply countP_flatMap_zero
    intro b
    cases b <;> simp [List.countP_cons, Ev.isDone]
  | result subtype errors =>
    simp only [emitClaude]
    split
    · simp
    · split <;> simp [List.countP_cons, Ev.isDone]
  | systemInit sid => simp [emitClaude]
  | other => simp [emitClaude]

theorem emitDA_done_free (c : DAChunk) : (emitDA c).countP Ev.isDone = 0 := by
  simp [emitDA, List.countP_cons, Ev.isDone]

/-! ## Lemmas about the coordinator machine -/

theorem lookupA_removeA (m : ActiveMap) (tid tid' : String) :
    lookupA (removeA m tid) tid' = if tid' = tid then none else lookupA m tid' := by
  induction m with
  | nil => simp [removeA, lookupA]
  | cons p rest ih =>
    obtain ⟨k, v⟩ := p
    simp only [removeA, lookupA]
    by_cases hk : k = tid
    · rw [if_pos hk, ih]
      by_cases h : tid' = tid
      · simp [h]
      · rw [if_neg h, if_neg h, if_neg (fun hc : k = tid' => h (hc ▸ hk))]
    · rw [if_neg hk]
      simp only [lookupA]
      by_cases h : k = tid'
      · rw [if_pos h, if_pos h, if_neg (fun hc : tid' = tid => hk (h.trans hc))]
      · rw [if_neg h, if_neg h, ih]

theorem lookupA_setA (m : ActiveMap) (tid : String) (rid : Nat)
    (tid' : String) :
    lookupA (setA m tid rid) tid'
      = if tid' = tid then some rid else lookupA m tid' := by
  simp only [setA, lookupA]
  by_cases h : tid = tid'
  · subst h; simp
  · rw [if_neg h, lookupA_removeA, if_neg (fun hc : tid' = tid => h hc.symm),
      if_neg (fun hc : tid' = tid => h hc.symm)]

theorem abortActive_runs (st : CoordState) (tid : String) :
    (abortActive st tid).runs = st.runs := by
  unfold abortActive
  cases lookupA st.active tid <;> rfl

theorem abortActive_next (st : CoordState) (tid : String) :
    (abortActive st tid).next = st.next := by
  unfold abortActive
  cases lookupA st.active tid <;> rfl

theorem abortActive_aborted_sub (st : CoordState) (tid : String) :
    st.aborted ⊆ (abortActive st tid).aborted := by
  unfold abortActive
  cases lookupA st.active tid with
  | none => exact fun _ h => h
  | some r => exact fun x h => List.mem_cons_of_mem r h

theorem abortActive_lookup (st : CoordState) (tid tid' : String) :
    lookupA (abortActive st tid).active tid'
      = if tid' = tid then none else lookupA st.active tid' := by
  unfold abortActive
  cases hl : lookupA st.active tid with
  | none =>
    by_cases h : tid' = tid
    · subst h; simp [hl]
    · simp [h]
  | some r =>
    simp only
    rw [lookupA_removeA]

theorem abortActive_aborts (st : CoordState) (tid : String) (r : Nat)
    (h : lookupA st.active tid = some r) :
    r ∈ (abortActive st tid).aborted := by
  unfold abortActive
  rw [h]
  exact List.mem_cons_self r st.aborted

/-- Reachable-state invariant of the coordinator: run identities are below
the fresh counter, and every created run that is not aborted is the
conversation's registered active run. -/
def Inv (st : CoordState) : Prop :=
  (∀ p ∈ st.runs, p.1 < st.next) ∧
    (∀ p ∈ st.runs, p.1 ∉ st.aborted → lookupA st.active p.2 = some p.1)

theorem inv_initState : Inv initState := by
  constructor <;> intro p hp <;> simp [initState] at hp

theorem inv_applyStep (st : CoordState) (s : CoordStep) (h : Inv st) :
    Inv (applyStep st s) := by
  obtain ⟨h1, h2⟩ := h
  cases s with
  | emit tid rid e => exact ⟨h1, h2⟩
  | cancel tid =>
    refine ⟨?_, ?_⟩
    · intro p hp
      simp only [applyStep] at hp ⊢
      rw [abortActive_runs] at hp
      rw [abortActive_next]
      exact h1 p hp
    · intro p hp hab
      simp only [applyStep] at hp hab ⊢
      rw [abortActive_runs] at hp
      have hab0 : p.1 ∉ st.aborted :=
        fun hx => hab (abortActive_aborted_sub st tid hx)
      have hl := h2 p hp hab0
      rw [abortActive_lookup]
      by_cases ht : p.2 = tid
      · exfalso
        exact hab (ht ▸ abortActive_aborts st tid p.1 (ht ▸ hl))
      · simp [ht, hl]
  | submit tid =>
    refine ⟨?_, ?_⟩
    · intro p hp
      simp only [applyStep, abortActive_runs] at hp ⊢
      rcases List.mem_cons.mp hp with hp | hp
      · subst hp; omega
      · have := h1 p hp; omega
    · intro p hp hab
      simp only [applyStep, abortActive_runs] at hp hab ⊢
      rcases List.mem_cons.mp hp with hp | hp
      · subst hp
        simp [lookupA_setA]
      · have hab1 : p.1 ∉ (abortActive st tid).aborted := hab
        have hab0 : p.1 ∉ st.aborted :=
          fun hx => hab1 (abortActive_aborted_sub st tid hx)
        have hl := h2 p hp hab0
        by_cases ht : p.2 = tid
        · exfalso
          exact hab1 (ht ▸ abortActive_aborts st tid p.1 (ht ▸ hl))
        · rw [lookupA_setA, if_neg ht, abortActive_lookup, if_neg ht]
          exact hl

theorem inv_runSteps_aux (l : List CoordStep) (st : CoordState)
    (h : Inv st) : Inv (runSteps st l) := by
  induction l generalizing st with
  | nil => exact h
  | cons s rest ih => exact ih (applyStep st s) (inv_applyStep st s h)

theorem inv_runSteps (l : List CoordStep) : Inv (runSteps initState l) :=
  inv_runSteps_aux l initState inv_initState

theorem aborted_mono (st : CoordState) (s : CoordStep) :
    st.aborted ⊆ (applyStep st s).aborted := by
  cases s with
  | emit tid rid e => exact fun _ h => h
  | cancel tid => exact abortActive_aborted_sub st tid
  | submit tid =>
    intro x hx
    exact abortActive_aborted_sub st tid hx

/-- Once a run's controller is aborted, that run delivers no event in any
continuation of the execution. -/
theorem silent_after_abort (rid : Nat) (l : List CoordStep) (st : CoordState)
    (h : rid ∈ st.aborted) (tid : String) (e : Ev) :
    (tid, rid, e) ∉ outputs st l := by
  induction l generalizing st with
  | nil => simp [outputs]
  | cons s rest ih =>
    simp only [outputs, List.mem_append]
    rintro (hmem | hmem)
    · cases s with
      | emit tid' rid' e' =>
        simp only [stepOutput] at hmem
        split at hmem
        · next hcond =>
          simp at hmem
          obtain ⟨_, h2, _⟩ := hmem
          exact hcond.2 (h2 ▸ h)
        · simp at hmem
      | submit tid' => simp [stepOutput] at hmem
      | cancel tid' => simp [stepOutput] at hmem
    · exact ih (applyStep st s) (aborted_mono st s h) hmem

/-! ## Claim theorems -/

/-- C1: at most one Run is active per conversation. Whenever a submission
(turn, resume or interrupt-decision) is processed, the coordinator aborts and
discards the conversation's existing run before creating the new one, so
every run of that conversation created before the submission delivers zero
events — in particular it never reaches a terminal event — in any
continuation after the new run starts. -/
theorem single_run_supersede (pre post : List CoordStep) (tid : String)
    (rid : Nat) (e : Ev)
    (hmem : (rid, tid) ∈ (runSteps initState pre).runs) :
    (tid, rid, e) ∉
      outputs (runSteps initState (pre ++ [CoordStep.submit tid])) post := by
  have hInv := inv_runSteps pre
  set st := runSteps initState pre with hst
  have hrun : runSteps initState (pre ++ [CoordStep.submit tid])
      = applyStep st (.submit tid) := by
    simp [runSteps, List.foldl_append, hst]
  rw [hrun]
  apply silent_after_abort
  have habort : rid ∈ (abortActive st tid).aborted := by
    by_cases h : rid ∈ st.aborted
    · exact abortActive_aborted_sub st tid h
    · exact abortActive_aborts st tid rid (hInv.2 (rid, tid) hmem h)
  simpa [applyStep] using habort

/-- Witness for C1: conversation `"c"` gets run 0 from a first submission; a
second submission supersedes it, after which run 0 can no longer deliver its
terminal `done`. -/
theorem single_run_supersede_witness :
    (0, "c") ∈ (runSteps initState [CoordStep.submit "c"]).runs ∧
      ("c", 0, Ev.done) ∉
        outputs
          (runSteps initState ([CoordStep.submit "c"] ++ [CoordStep.submit "c"]))
          [CoordStep.emit "c" 0 Ev.done] :=
  ⟨by decide,
    single_run_supersede [CoordStep.submit "c"] [CoordStep.emit "c" 0 Ev.done]
      "c" 0 Ev.done (by decide)⟩

/-- C2 counterexample: terminal exclusivity fails as stated. A non-cancelled
codex `begin` run whose native stream reports `turn.failed` and then
completes emits TWO terminal events, and the `error` is not last: the loop
yields `error` for the failed turn and the post-loop epilogue still yields
`done`. -/
theorem terminal_exclusivity_cex :
    codexStreamEvents "m" (.completes [CodexEvent.turnFailed none]) Sig.never
        = [Ev.error "Turn failed", Ev.done] ∧
      (codexStreamEvents "m" (.completes [CodexEvent.turnFailed none])
          Sig.never).countP Ev.isTerminal = 2 := by
  constructor <;> rfl

/-- C2 (amended): for every non-cancelled Run, when the native stream
completes normally the emitted sequence ends with exactly one `done`, its
last event (mid-stream failures may add `error` events before it, so
exclusivity holds for `done` only); when the native call throws a
non-cancellation error, the sequence ends with a single `error` and contains
no `done` (for the graph-checkpoint variant the exception instead escapes to
the coordinator and the adapter emits no terminal). The same epilogue shape
holds for the session-resumable resume/interrupt and graph-checkpoint
resume/interrupt operations (`reject` yields exactly `[done]`). -/
theorem run_terminal_shape (messageId : String) (evs : List CodexEvent)
    (cms : List SdkMessage) (devs : List DAChunk) (err : Thrown)
    (sid : String) (hcodex : codexIsAbortError err = false)
    (hclaude : claudeIsAbortError err = false)
    (hsid : (sid == "") = false) :
    ((codexStreamEvents messageId (.completes evs) Sig.never).getLast?
        = some .done ∧
      (codexStreamEvents messageId (.completes evs) Sig.never).countP
        Ev.isDone = 1) ∧
    ((codexStreamEvents messageId (.throws evs err) Sig.never).getLast?
        = some (.error err.surfaceMsg) ∧
      (codexStreamEvents messageId (.throws evs err) Sig.never).countP
        Ev.isDone = 0) ∧
    ((claudeStreamEvents messageId (.completes cms) Sig.never).getLast?
        = some .done ∧
      (claudeStreamEvents messageId (.completes cms) Sig.never).countP
        Ev.isDone = 1) ∧
    ((claudeStreamEvents messageId (.throws cms err) Sig.never).getLast?
        = some (.error err.surfaceMsg) ∧
      (claudeStreamEvents messageId (.throws cms err) Sig.never).countP
        Ev.isDone = 0) ∧
    ((deepagentsStream (.completes devs) Sig.never).1.getLast?
        = some .done ∧
      (deepagentsStream (.completes devs) Sig.never).1.countP Ev.isDone = 1) ∧
    (deepagentsStream (.throws devs err) Sig.never
        = (devs.flatMap emitDA, some err)) ∧
    ((claudeResumeEvents (some sid) messageId (.completes cms)
        Sig.never).getLast? = some .done) ∧
    (claudeInterruptEvents (some sid) .reject messageId (.completes cms)
        Sig.never = [.done]) ∧
    ((deepagentsResume (.completes devs) Sig.never).1.getLast?
        = some .done) ∧
    ((deepagentsInterrupt .approve (.completes devs) Sig.never).1.getLast?
        = some .done) ∧
    (deepagentsInterrupt .reject (.completes devs) Sig.never
        = ([.done], none)) := by
  have hdoneC : (evs.flatMap (emitCodex messageId)).countP Ev.isDone = 0 :=
    countP_flatMap_zero _ _ _ (emitCodex_done_free messageId)
  have hdoneA : (cms.flatMap (emitClaude messageId)).countP Ev.isDone = 0 :=
    countP_flatMap_zero _ _ _ (emitClaude_done_free messageId)
  have hdoneD : (devs.flatMap emitDA).countP Ev.isDone = 0 :=
    countP_flatMap_zero _ _ _ emitDA_done_free
  refine ⟨⟨?_, ?_⟩, ⟨?_, ?_⟩, ⟨?_, ?_⟩, ⟨?_, ?_⟩, ⟨?_, ?_⟩, ?_, ?_, ?_, ?_,
    ?_, ?_⟩
  · rw [codexStreamEvents, streamWithCatch_completes_never,
      List.getLast?_concat]
  · rw [codexStreamEvents, streamWithCatch_completes_never,
      List.countP_append, hdoneC]
    rfl
  · rw [codexStreamEvents, streamWithCatch_throws_never, hcodex]
    simp only [Bool.false_eq_true, if_false]
    rw [List.getLast?_concat]
  · rw [codexStreamEvents, streamWithCatch_throws_never, hcodex]
    simp only [Bool.false_eq_true, if_false]
    rw [List.countP_append, hdoneC]
    rfl
  · rw [claudeStreamEvents, streamWithCatch_completes_never,
      List.getLast?_concat]
  · rw [claudeStreamEvents, streamWithCatch_completes_never,
      List.countP_append, hdoneA]
    rfl
  · rw [claudeStreamEvents, streamWithCatch_throws_never, hclaude]
    simp only [Bool.false_eq_true, if_false]
    rw [List.getLast?_concat]
  · rw [claudeStreamEvents, streamWithCatch_throws_never, hclaude]
    simp only [Bool.false_eq_true, if_false]
    rw [List.countP_append, hdoneA]
    rfl
  · rw [deepagentsStream, streamNoCatch_completes_never]
    exact List.getLast?_concat _
  · rw [deepagentsStream, streamNoCatch_completes_never]
    simp only
    rw [List.countP_append, hdoneD]
    rfl
  · rw [deepagentsStream, streamNoCatch_throws_never]
  · rw [claudeResumeEvents]
    simp only [hsid, Bool.false_eq_true, if_false]
    rw [streamWithCatch_completes_never, List.getLast?_concat]
  · rw [claudeInterruptEvents]
    simp only [hsid, Bool.false_eq_true, if_false]
  · rw [deepagentsResume, streamNoCatch_completes_never]
    exact List.getLast?_concat _
  · rw [deepagentsInterrupt, streamNoCatch_completes_never]
    exact List.getLast?_concat _
  · rfl

/-- Witness for C2 (amended), at a concrete non-noise exception and
session id. -/
theorem run_terminal_shape_witness :
    codexIsAbortError ⟨true, "TypeError", "boom"⟩ = false ∧
      claudeIsAbortError ⟨true, "TypeError", "boom"⟩ = false ∧
      (codexStreamEvents "m" (.throws [] ⟨true, "TypeError", "boom"⟩)
          Sig.never).countP Ev.isDone = 0 :=
  ⟨by decide, by decide,
    ((run_terminal_shape "m" [] [] [] ⟨true, "TypeError", "boom"⟩ "s"
        (by decide) (by decide) (by decide)).2.1).2⟩

/-! ### Delivery under a triggered token -/

theorem loopOut_abortAt0 (emit : α → List Ev) (k : Nat) (evs : List α) :
    loopOut emit (Sig.mk (some k)) evs 0 = (evs.take k).flatMap emit := by
  simpa using loopOut_abortAt emit k evs 0 (Nat.zero_le k)

theorem deliveredWithCatch_completes_abort (emit : α → List Ev)
    (iae : Thrown → Bool) (evs : List α) (k : Nat) (hk : k ≤ evs.length) :
    deliveredWithCatch emit iae (.completes evs) (Sig.mk (some k))
      = (evs.take k).flatMap emit := by
  have ha : (Sig.mk (some k)).aborted evs.length = true := by
    simp [Sig.aborted, hk]
  simp [deliveredWithCatch, loopOut_abortAt0, ha]

theorem deliveredWithCatch_throws_abort (emit : α → List Ev)
    (iae : Thrown → Bool) (evs : List α) (err : Thrown) (k : Nat)
    (hk : k ≤ evs.length) :
    deliveredWithCatch emit iae (.throws evs err) (Sig.mk (some k))
      = (evs.take k).flatMap emit := by
  have ha : (Sig.mk (some k)).aborted evs.length = true := by
    simp [Sig.aborted, hk]
  by_cases hb : brokeEarly (Sig.mk (some k)) evs.length = true
  · simp [deliveredWithCatch, loopOut_abortAt0, hb]
  · simp [deliveredWithCatch, loopOut_abortAt0, hb, ha]

theorem deliveredNoCatch_completes_abort (emit : α → List Ev) (evs : List α)
    (k : Nat) (hk : k ≤ evs.length) :
    deliveredNoCatch emit (.completes evs) (Sig.mk (some k))
      = (evs.take k).flatMap emit := by
  have ha : (Sig.mk (some k)).aborted evs.length = true := by
    simp [Sig.aborted, hk]
  simp [deliveredNoCatch, loopOut_abortAt0, ha]

theorem deliveredNoCatch_throws_abort (emit : α → List Ev) (evs : List α)
    (err : Thrown) (k : Nat) (hnoise : coordinatorIsAbortError err = true) :
    deliveredNoCatch emit (.throws evs err) (Sig.mk (some k))
      = (evs.take k).flatMap emit := by
  by_cases hb : brokeEarly (Sig.mk (some k)) evs.length = true
  · simp [deliveredNoCatch, loopOut_abortAt0, hb]
  · simp [deliveredNoCatch, loopOut_abortAt0, hb, coordCatchEvents, hnoise]

/-- C3 counterexample: cancellation silence fails as stated. A graph-checkpoint
run cancelled at instant 0 (before any event, hence before any terminal)
whose native call then rejects with an error the coordinator does not
classify as abort noise still delivers a terminal `error` to the consumer:
the deepagents adapter has no catch, and the coordinator's catch sends the
`error` event without re-checking the abort flag. -/
theorem cancellation_silence_cex :
    deepagentsDeliveredEvents (.throws [] ⟨true, "Error", "boom"⟩)
        (Sig.mk (some 0)) = [Ev.error "boom"] ∧
      (deepagentsDeliveredEvents (.throws [] ⟨true, "Error", "boom"⟩)
          (Sig.mk (some 0))).countP Ev.isTerminal = 1 := by
  constructor <;> rfl

/-- C3 (amended): if the token is triggered at instant `k`, the events
delivered to the consumer are exactly those derived from the native events
pulled before `k` — nothing is delivered after cancellation is observed and
`done` is never delivered — for the session-resumable and thread-based
variants unconditionally, and for the graph-checkpoint variant whenever its
native call completes, or throws an error the coordinator classifies as
cancellation noise. (A non-noise exception escaping the graph-checkpoint
adapter after cancellation still becomes a terminal `error`, per the
counterexample.) Under the claim's premise that no terminal event was emitted
before the trigger, these delivered prefixes contain no terminal event. -/
theorem cancellation_silence_amended (messageId : String)
    (evs : List CodexEvent) (cms : List SdkMessage) (devs : List DAChunk)
    (err derr : Thrown) (k1 k2 k3 : Nat)
    (h1 : k1 ≤ evs.length) (h2 : k2 ≤ cms.length) (h3 : k3 ≤ devs.length)
    (hnoise : coordinatorIsAbortError derr = true) :
    (codexDeliveredEvents messageId (.completes evs) (Sig.mk (some k1))
        = (evs.take k1).flatMap (emitCodex messageId)) ∧
    (codexDeliveredEvents messageId (.throws evs err) (Sig.mk (some k1))
        = (evs.take k1).flatMap (emitCodex messageId)) ∧
    (claudeDeliveredEvents messageId (.completes cms) (Sig.mk (some k2))
        = (cms.take k2).flatMap (emitClaude messageId)) ∧
    (claudeDeliveredEvents messageId (.throws cms err) (Sig.mk (some k2))
        = (cms.take k2).flatMap (emitClaude messageId)) ∧
    (deepagentsDeliveredEvents (.completes devs) (Sig.mk (some k3))
        = (devs.take k3).flatMap emitDA) ∧
    (deepagentsDeliveredEvents (.throws devs derr) (Sig.mk (some k3))
        = (devs.take k3).flatMap emitDA) ∧
    ((evs.take k1).flatMap (emitCodex messageId)).countP Ev.isDone = 0 ∧
    ((cms.take k2).flatMap (emitClaude messageId)).countP Ev.isDone = 0 ∧
    ((devs.take k3).flatMap emitDA).countP Ev.isDone = 0 :=
  ⟨deliveredWithCatch_completes_abort _ _ evs k1 h1,
    deliveredWithCatch_throws_abort _ _ evs err k1 h1,
    deliveredWithCatch_completes_abort _ _ cms k2 h2,
    deliveredWithCatch_throws_abort _ _ cms err k2 h2,
    deliveredNoCatch_completes_abort _ devs k3 h3,
    deliveredNoCatch_throws_abort _ devs derr k3 hnoise,
    countP_flatMap_zero _ _ _ (emitCodex_done_free messageId),
    countP_flatMap_zero _ _ _ (emitClaude_done_free messageId),
    countP_flatMap_zero _ _ _ emitDA_done_free⟩

/-- Witness for C3 (amended): a codex run with two native events, cancelled
at instant 1: only the first token is delivered and no terminal appears. -/
theorem cancellation_silence_witness :
    1 ≤ ([CodexEvent.itemCompleted (.agentMessage "hi"),
          CodexEvent.turnFailed none] : List CodexEvent).length ∧
      coordinatorIsAbortError ⟨true, "AbortError", "The operation was aborted"⟩
        = true ∧
      codexDeliveredEvents "m"
          (.completes [CodexEvent.itemCompleted (.agentMessage "hi"),
            CodexEvent.turnFailed none]) (Sig.mk (some 1))
        = (([CodexEvent.itemCompleted (.agentMessage "hi"),
            CodexEvent.turnFailed none] : List CodexEvent).take 1).flatMap
            (emitCodex "m") :=
  ⟨by decide, by decide,
    (cancellation_silence_amended "m"
        [CodexEvent.itemCompleted (.agentMessage "hi"),
          CodexEvent.turnFailed none] [] []
        ⟨true, "Error", "x"⟩ ⟨true, "AbortError", "The operation was aborted"⟩
        1 0 0 (by decide) (by decide) (by decide) (by decide)).1⟩

/-- C4: for every input and every cancellation token, the thread-based
(codex) variant's `resume` and `interrupt` terminate immediately with a
single terminal `error` event whose message names the unsupported operation
(`Resume from checkpoint` / `Interrupt handling`, `not yet supported`), and
— being plain constant yields, embedded as total functions — never throw
across the protocol boundary. -/
theorem codex_unsupported_ops (args : ResumeArgs) (iargs : InterruptArgs)
    (s s2 : Sig) :
    codexResumeEvents args s
        = [.error "Resume from checkpoint not yet supported for Codex runtime"] ∧
      codexInterruptEvents iargs s2
        = [.error "Interrupt handling not yet supported for Codex runtime"] ∧
      (codexResumeEvents args s).countP Ev.isTerminal = 1 ∧
      (codexInterruptEvents iargs s2).countP Ev.isTerminal = 1 ∧
      substrB "Resume from checkpoint"
        "Resume from checkpoint not yet supported for Codex runtime" = true ∧
      substrB "not yet supported"
        "Resume from checkpoint not yet supported for Codex runtime" = true ∧
      substrB "Interrupt handling"
        "Interrupt handling not yet supported for Codex runtime" = true ∧
      substrB "not yet supported"
        "Interrupt handling not yet supported for Codex runtime" = true :=
  ⟨rfl, rfl, rfl, rfl, by decide, by decide, by decide, by decide⟩

/-! ### Runtime Selector -/

/-- A candidate that the selector must skip: absent, falsy, or not in the
closed set of runtime kinds. -/
def candInvalid (o : Option String) : Prop :=
  ∀ s, o = some s → s = "" ∨ isValidRuntime (some s) = false

theorem valid_ne_empty (e : String) (h : isValidRuntime (some e) = true) :
    (e == "") = false := by
  by_cases hne : (e == "") = true
  · have he : e = "" := by simpa using hne
    subst he
    exact absurd h (by decide)
  · simpa using hne

theorem env_falls_through (env : Option String) (thread : Option Thread)
    (gd : Option String) (hc : candInvalid env) :
    getRuntimeType env thread gd = runtimeFromMetaAndDefault thread gd := by
  cases env with
  | none => rfl
  | some e =>
    rcases hc e rfl with he | he
    · subst he
      simp [getRuntimeType]
    · simp [getRuntimeType, he]

theorem meta_falls_through (m : MetaRecord) (gd : Option String)
    (hc : candInvalid m.agentRuntime) :
    runtimeFromMetaAndDefault (some ⟨some (.record m)⟩) gd
      = .ok (if isValidRuntime gd then gd.getD "deepagents"
             else "deepagents") := by
  simp only [runtimeFromMetaAndDefault, parsedMeta]
  cases hm : m.agentRuntime with
  | none => rfl
  | some a =>
    rcases hc a hm with ha | ha
    · subst ha; simp
    · simp [ha]

/-- C5: the Runtime Selector resolves the backend kind with precedence
environment override → per-conversation `agentRuntime` metadata → global
default → fixed fallback `'deepagents'`, each candidate validated against
the closed set `['deepagents', 'claude-sdk', 'codex']`, an invalid or absent
candidate falling through; in the scenario with the env override absent, a
metadata override of the session-resumable kind (`claude-sdk`) and a global
default of the graph-checkpoint kind (`deepagents`), resolution returns
`claude-sdk`. -/
theorem runtime_selector_precedence :
    (∀ (thread : Option Thread) (gd : Option String) (e : String),
        isValidRuntime (some e) = true →
        getRuntimeType (some e) thread gd = .ok e) ∧
    (∀ (env : Option String) (m : MetaRecord) (gd : Option String)
        (a : String), candInvalid env → m.agentRuntime = some a →
        isValidRuntime (some a) = true →
        getRuntimeType env (some ⟨some (.record m)⟩) gd = .ok a) ∧
    (∀ (env : Option String) (m : MetaRecord) (g : String),
        candInvalid env → candInvalid m.agentRuntime →
        isValidRuntime (some g) = true →
        getRuntimeType env (some ⟨some (.record m)⟩) (some g) = .ok g) ∧
    (∀ (env : Option String) (m : MetaRecord) (gd : Option String),
        candInvalid env → candInvalid m.agentRuntime →
        isValidRuntime gd = false →
        getRuntimeType env (some ⟨some (.record m)⟩) gd
          = .ok "deepagents") ∧
    (getRuntimeType none
        (some ⟨some (.record { agentRuntime := some "claude-sdk" })⟩)
        (some "deepagents") = .ok "claude-sdk") := by
  refine ⟨?_, ?_, ?_, ?_, rfl⟩
  · intro thread gd e he
    have hne := valid_ne_empty e he
    simp [getRuntimeType, hne, he]
  · intro env m gd a henv hm ha
    rw [env_falls_through env _ gd henv]
    have hne := valid_ne_empty a ha
    simp [runtimeFromMetaAndDefault, parsedMeta, hm, hne, ha]
  · intro env m g henv hmeta hg
    rw [env_falls_through env _ (some g) henv, meta_falls_through m _ hmeta]
    simp [hg]
  · intro env m gd henv hmeta hg
    rw [env_falls_through env _ gd henv, meta_falls_through m _ hmeta]
    simp [hg]

/-- Witness for C5: the highest level of precedence at `"codex"`, and the
scenario clause. -/
theorem runtime_selector_witness :
    isValidRuntime (some "codex") = true ∧
      getRuntimeType (some "codex") none none = .ok "codex" :=
  ⟨by decide, runtime_selector_precedence.1 none none "codex" (by decide)⟩

/-! ### Failure propagation -/

theorem deliveredNoCatch_throws_never (emit : α → List Ev) (evs : List α)
    (err : Thrown) :
    deliveredNoCatch emit (.throws evs err) Sig.never
      = evs.flatMap emit ++ coordCatchEvents err := by
  simp [deliveredNoCatch, loopOut_never, brokeEarly_never]

/-- C6 counterexample: the cancellation-noise indicator sets are per-backend,
not the union claimed. The session-resumable (claude) adapter swallows only
`AbortError` / `'aborted'` / `'Controller is already closed'`: a native
failure whose message indicates `'cancelled'` is NOT swallowed there — it
becomes a terminal `error` event rather than "no event at all". -/
theorem failure_propagation_cex :
    claudeStreamEvents "m" (.throws [] ⟨true, "Error", "cancelled"⟩)
        Sig.never = [Ev.error "cancelled"] ∧
      codexStreamEvents "m"
          (.throws [] ⟨true, "Error", "Controller is already closed"⟩)
          Sig.never = [Ev.error "Controller is already closed"] := by
  constructor <;> rfl

/-- C6 (amended): no caller above the coordinator boundary receives a raw
exception — every failure becomes either no event at all or a terminal
`error` event — but the cancellation-noise indicators are per-component:
the session-resumable adapter (and the coordinator's own catch) swallow an
`Error` named `AbortError` or whose message contains `'aborted'` or
`'Controller is already closed'`; the thread-based adapter swallows
`AbortError` / `'aborted'` / `'cancelled'`. Every other failure from the
native execution call becomes one terminal `error` event carrying the
error's message (or `'Unknown error'` for a non-`Error` throw). -/
theorem failure_propagation_amended (messageId : String)
    (evs : List CodexEvent) (cms : List SdkMessage) (devs : List DAChunk)
    (err : Thrown) :
    (err.isErrorInstance = true →
      (err.name = "AbortError" ∨ substrB "aborted" err.message = true ∨
        substrB "Controller is already closed" err.message = true) →
      claudeStreamEvents messageId (.throws cms err) Sig.never
        = cms.flatMap (emitClaude messageId)) ∧
    ((err.isErrorInstance = false ∨
        (err.name ≠ "AbortError" ∧ substrB "aborted" err.message = false ∧
          substrB "Controller is already closed" err.message = false)) →
      claudeStreamEvents messageId (.throws cms err) Sig.never
        = cms.flatMap (emitClaude messageId) ++ [.error err.surfaceMsg]) ∧
    (err.isErrorInstance = true →
      (err.name = "AbortError" ∨ substrB "aborted" err.message = true ∨
        substrB "cancelled" err.message = true) →
      codexStreamEvents messageId (.throws evs err) Sig.never
        = evs.flatMap (emitCodex messageId)) ∧
    ((err.isErrorInstance = false ∨
        (err.name ≠ "AbortError" ∧ substrB "aborted" err.message = false ∧
          substrB "cancelled" err.message = false)) →
      codexStreamEvents messageId (.throws evs err) Sig.never
        = evs.flatMap (emitCodex messageId) ++ [.error err.surfaceMsg]) ∧
    (err.isErrorInstance = true →
      (err.name = "AbortError" ∨ substrB "aborted" err.message = true ∨
        substrB "Controller is already closed" err.message = true) →
      deepagentsDeliveredEvents (.throws devs err) Sig.never
        = devs.flatMap emitDA) ∧
    ((err.isErrorInstance = false ∨
        (err.name ≠ "AbortError" ∧ substrB "aborted" err.message = false ∧
          substrB "Controller is already closed" err.message = false)) →
      deepagentsDeliveredEvents (.throws devs err) Sig.never
        = devs.flatMap emitDA ++ [.error err.surfaceMsg]) := by
  have hclaudeT : err.isErrorInstance = true →
      (err.name = "AbortError" ∨ substrB "aborted" err.message = true ∨
        substrB "Controller is already closed" err.message = true) →
      claudeIsAbortError err = true := by
    intro hi hind
    simp only [claudeIsAbortError, hi, Bool.true_and]
    rcases hind with h | h | h
    · simp [h]
    · simp [h]
    · simp [h]
  have hclaudeF : (err.isErrorInstance = false ∨
      (err.name ≠ "AbortError" ∧ substrB "aborted" err.message = false ∧
        substrB "Controller is already closed" err.message = false)) →
      claudeIsAbortError err = false := by
    rintro (h | ⟨h1, h2, h3⟩)
    · simp [claudeIsAbortError, h]
    · simp [claudeIsAbortError, h1, h2, h3]
  have hcodexT : err.isErrorInstance = true →
      (err.name = "AbortError" ∨ substrB "aborted" err.message = true ∨
        substrB "cancelled" err.message = true) →
      codexIsAbortError err = true := by
    intro hi hind
    simp only [codexIsAbortError, hi, Bool.true_and]
    rcases hind with h | h | h
    · simp [h]
    · simp [h]
    · simp [h]
  have hcodexF : (err.isErrorInstance = false ∨
      (err.name ≠ "AbortError" ∧ substrB "aborted" err.message = false ∧
        substrB "cancelled" err.message = false)) →
      codexIsAbortError err = false := by
    rintro (h | ⟨h1, h2, h3⟩)
    · simp [codexIsAbortError, h]
    · simp [codexIsAbortError, h1, h2, h3]
  refine ⟨?_, ?_, ?_, ?_, ?_, ?_⟩
  · intro hi hind
    rw [claudeStreamEvents, streamWithCatch_throws_never, hclaudeT hi hind]
    simp
  · intro hind
    rw [claudeStreamEvents, streamWithCatch_throws_never, hclaudeF hind]
    simp
  · intro hi hind
    rw [codexStreamEvents, streamWithCatch_throws_never, hcodexT hi hind]
    simp
  · intro hind
    rw [codexStreamEvents, streamWithCatch_throws_never, hcodexF hind]
    simp
  · intro hi hind
    rw [deepagentsDeliveredEvents, deliveredNoCatch_throws_never,
      coordCatchEvents]
    have : coordinatorIsAbortError err = true := by
      simp only [coordinatorIsAbortError, hi, Bool.true_and]
      rcases hind with h | h | h
      · simp [h]
      · simp [h]
      · simp [h]
    simp [this]
  · intro hind
    rw [deepagentsDeliveredEvents, deliveredNoCatch_throws_never,
      coordCatchEvents]
    have : coordinatorIsAbortError err = false := by
      rcases hind with h | ⟨h1, h2, h3⟩
      · simp [coordinatorIsAbortError, h]
      · simp [coordinatorIsAbortError, h1, h2, h3]
    simp [this]

/-- Witness for C6 (amended): an `AbortError` is swallowed by the
session-resumable adapter, and a plain failure surfaces as one terminal
`error` event. -/
theorem failure_propagation_witness :
    (⟨true, "AbortError", "The user aborted a request"⟩ : Thrown).isErrorInstance
        = true ∧
      claudeStreamEvents "m"
          (.throws [] ⟨true, "AbortError", "The user aborted a request"⟩)
          Sig.never = [] ∧
      claudeStreamEvents "m" (.throws [] ⟨true, "TypeError", "boom"⟩)
          Sig.never = [Ev.error "boom"] :=
  ⟨rfl,
    (failure_propagation_amended "m" [] [] []
        ⟨true, "AbortError", "The user aborted a request"⟩).1 rfl
      (Or.inl rfl),
    by
      have h := (failure_propagation_amended "m" [] [] []
          ⟨true, "TypeError", "boom"⟩).2.1
        (Or.inr ⟨by decide, by decide, by decide⟩)
      simpa using h⟩

/-- C7: evaluation of `createDeepagentsAdapter.interrupt` at the three
decisions over the same native checkpoint stream. `reject` yields exactly one
`done` and nothing else, and `approve` streams the graph from its checkpoint
and ends with `done` — both as the claim states. But `edit` has no branch in
the source: the generator returns having emitted NOTHING (no continuation,
no terminal event), instead of behaving like `approve` with substituted
arguments; the trailing source comment claims the edit case is "handled
similarly to approve", which the code contradicts. -/
theorem deepagents_interrupt_edit_divergence :
    deepagentsInterrupt (.edit "ls -la /tmp") (.completes [⟨.messages, "d"⟩])
        Sig.never = ([], none) ∧
      deepagentsInterrupt .approve (.completes [⟨.messages, "d"⟩]) Sig.never
        = ([Ev.stream .messages "d", Ev.done], none) ∧
      deepagentsInterrupt .reject (.completes [⟨.messages, "d"⟩]) Sig.never
        = ([Ev.done], none) :=
  ⟨rfl, rfl, rfl⟩

/-- C8: identifier stability. Once a native session/thread identifier is
persisted for a conversation+backend pair, a subsequent `begin` for that pair
reads it back through the Session Identity Store and resumes the existing
session/thread with it rather than starting a fresh one: the claude `query`
options carry `resume: sid`, and the codex setup takes the
`resumeThread(ctid)` action instead of `startThread`; and the store
round-trips — saving an identifier into parseable metadata writes exactly
that key and a subsequent get returns it. -/
theorem session_identity_stability (m : MetaRecord) (thread : Option Thread)
    (modelId : Option String) (sid ctid : String)
    (hget : getSessionId thread = some sid)
    (hgetc : getCodexThreadId thread = some ctid)
    (hc : (ctid == "") = false) :
    (claudeStreamConfig thread modelId).resume = some sid ∧
      (codexStreamConfig thread modelId).threadAction
        = .resumeThread ctid ∧
      saveSessionId (some ⟨some (.record m)⟩) sid
        = .ok (some { m with claudeSessionId := some sid }) ∧
      getSessionId (some ⟨some (.record { m with claudeSessionId := some sid })⟩)
        = some sid ∧
      saveCodexThreadId (some ⟨some (.record m)⟩) ctid
        = .ok (some { m with codexThreadId := some ctid }) ∧
      getCodexThreadId
          (some ⟨some (.record { m with codexThreadId := some ctid })⟩)
        = some ctid := by
  refine ⟨?_, ?_, rfl, rfl, rfl, rfl⟩
  · simp [claudeStreamConfig, hget]
  · simp [codexStreamConfig, hgetc, hc]

/-- Witness for C8 at a thread whose metadata holds both identifiers. -/
theorem session_identity_stability_witness :
    getSessionId (some ⟨some (.record
        { claudeSessionId := some "sess-1", codexThreadId := some "th-1" })⟩)
        = some "sess-1" ∧
      (claudeStreamConfig (some ⟨some (.record
          { claudeSessionId := some "sess-1",
            codexThreadId := some "th-1" })⟩) none).resume = some "sess-1" :=
  ⟨rfl,
    (session_identity_stability {}
        (some ⟨some (.record
          { claudeSessionId := some "sess-1", codexThreadId := some "th-1" })⟩)
        none "sess-1" "th-1" rfl rfl (by decide)).1⟩

/-- C9 counterexample: the claim fails for the set operations. With stored
metadata present but unparsable, `saveSessionId` and `saveCodexThreadId`
run `JSON.parse(thread.metadata)` outside any try/catch and the parse
failure propagates to the caller as an exception, instead of being treated
as "absent". -/
theorem identity_parse_cex :
    saveSessionId (some ⟨some .malformed⟩) "sess-1" = .error () ∧
      saveCodexThreadId (some ⟨some .malformed⟩) "th-1" = .error () :=
  ⟨rfl, rfl⟩

/-- C9 (amended): the get operations (`getSessionId` / `getCodexThreadId`)
treat unparsable metadata as an absent identifier (fresh start) and never
propagate the parse failure; the set operations, however, throw on
unparsable metadata (the exception is then converted by the calling
adapter's catch), and behave as read-modify-write of the single key when the
metadata is absent or parseable. -/
theorem identity_parse_handling (m : MetaRecord) (sid cid : String) :
    getSessionId (some ⟨some .malformed⟩) = none ∧
      getCodexThreadId (some ⟨some .malformed⟩) = none ∧
      saveSessionId (some ⟨some .malformed⟩) sid = .error () ∧
      saveCodexThreadId (some ⟨some .malformed⟩) cid = .error () ∧
      saveSessionId (some ⟨some (.record m)⟩) sid
        = .ok (some { m with claudeSessionId := some sid }) ∧
      saveCodexThreadId (some ⟨some (.record m)⟩) cid
        = .ok (some { m with codexThreadId := some cid }) ∧
      saveSessionId none sid = .ok none ∧
      saveSessionId (some ⟨none⟩) sid
        = .ok (some { claudeSessionId := some sid }) ∧
      saveCodexThreadId (some ⟨none⟩) cid
        = .ok (some { codexThreadId := some cid }) :=
  ⟨rfl, rfl, rfl, rfl, rfl, rfl, rfl, rfl, rfl⟩

/-- C10: model-family fallback. When `begin` is called with a `modelId`
outside the selected backend's family — not starting with `claude-` for the
session-resumable variant; not starting with `gpt-`, `o1` or `o3` for the
thread-based variant — or with `modelId` absent, the turn configuration
silently uses the built-in default model; an in-family `modelId` is honoured
unchanged. -/
theorem model_family_fallback :
    (∀ (thread : Option Thread),
        (claudeStreamConfig thread none).model = DEFAULT_CLAUDE_MODEL) ∧
    (∀ (thread : Option Thread) (mm : String),
        startsWithB mm "claude-" = false →
        (claudeStreamConfig thread (some mm)).model = DEFAULT_CLAUDE_MODEL) ∧
    (∀ (thread : Option Thread) (mm : String), (mm == "") = false →
        startsWithB mm "claude-" = true →
        (claudeStreamConfig thread (some mm)).model = mm) ∧
    (∀ (thread : Option Thread),
        (codexStreamConfig thread none).model = DEFAULT_CODEX_MODEL) ∧
    (∀ (thread : Option Thread) (mm : String),
        startsWithB mm "gpt-" = false → startsWithB mm "o1" = false →
        startsWithB mm "o3" = false →
        (codexStreamConfig thread (some mm)).model = DEFAULT_CODEX_MODEL) ∧
    (∀ (thread : Option Thread) (mm : String), (mm == "") = false →
        (startsWithB mm "gpt-" || startsWithB mm "o1" ||
          startsWithB mm "o3") = true →
        (codexStreamConfig thread (some mm)).model = mm) := by
  refine ⟨?_, ?_, ?_, ?_, ?_, ?_⟩
  · intro thread
    rfl
  · intro thread mm h
    simp [claudeStreamConfig, claudeModelFor, isClaudeModel, h]
  · intro thread mm hne h
    simp [claudeStreamConfig, claudeModelFor, isClaudeModel, hne, h]
  · intro thread
    rfl
  · intro thread mm h1 h2 h3
    simp [codexStreamConfig, codexModelFor, isCodexModel, h1, h2, h3]
  · intro thread mm hne h
    simp [codexStreamConfig, codexModelFor, isCodexModel, hne, h]

/-- Witness for C10: an out-of-family model falls back to the default for
both backends; an in-family model is honoured. -/
theorem model_family_fallback_witness :
    startsWithB "llama-3-70b" "claude-" = false ∧
      (claudeStreamConfig none (some "llama-3-70b")).model
        = DEFAULT_CLAUDE_MODEL ∧
      (codexStreamConfig none (some "llama-3-70b")).model
        = DEFAULT_CODEX_MODEL ∧
      (claudeStreamConfig none (some "claude-opus-4")).model
        = "claude-opus-4" ∧
      (codexStreamConfig none (some "gpt-5-codex")).model = "gpt-5-codex" :=
  ⟨by decide,
    model_family_fallback.2.1 none "llama-3-70b" (by decide),
    model_family_fallback.2.2.2.2.1 none "llama-3-70b" (by decide)
      (by decide) (by decide),
    model_family_fallback.2.2.1 none "claude-opus-4" (by decide) (by decide),
    model_family_fallback.2.2.2.2.2 none "gpt-5-codex" (by decide)
      (by decide)⟩

end Openwork
